import Mathlib

/-!
Verification of the UART-TSI UIO HTIF memory-access layer
(`uio_mmio_src/uio_htif.cc`, `uio_htif.h`).

The development shallowly embeds the address-translating, bounds-checked
memory-access layer: the fixed layout constants, the Rocket-address to
UIO-window-offset translation, the validity check, the read/write/clear
chunk operations, the MSIP reset, and the mmap lifecycle
(`map_uio_device` / `unmap_uio`).

Machine integers (`addr_t`, `size_t`, both 64-bit unsigned on the target
platform) are modelled as `Nat`, with `% 2 ^ 64` applied exactly where the
C code's unsigned additions can wrap.  Subtractions in the source only
occur guarded by `a >= base`, so plain `Nat` subtraction agrees with the
machine result there.
-/

namespace UioHtif

/-- Width of the machine words: `2 ^ 64`, written as a literal, since
`addr_t` and `size_t` are 64-bit unsigned integers. -/
def TWO64 : ℕ := 18446744073709551616

/-- Fixed UIO memory layout offset of DRAM inside the window (`uio_htif.h`). -/
def UIO_DRAM_OFFSET : ℕ := 0x00000000

/-- Fixed UIO memory layout offset of the boot ROM inside the window. -/
def UIO_BOOTROM_OFFSET : ℕ := 0x3fffc000

/-- Fixed UIO memory layout offset of the CLINT inside the window. -/
def UIO_CLINT_OFFSET : ℕ := 0x3fffe000

/-- Rocket address-space base of the boot ROM. -/
def ROCKET_BOOTROM_BASE : ℕ := 0x1000

/-- Rocket address-space base of the CLINT (interrupt-control block). -/
def ROCKET_CLINT_BASE : ℕ := 0x2000000

/-- Rocket address-space base of DRAM (main memory). -/
def ROCKET_DRAM_BASE : ℕ := 0x80000000

/-- Runtime configuration of the mapping: total mapped window size
(`uio_size`) and configured DRAM region size (`dram_size`), both `size_t`
fields of `uio_htif_t`. -/
structure UioCfg where
  uio_size : ℕ
  dram_size : ℕ
  deriving DecidableEq, Repr

/-- Configuration from the defaults of `parse_uio_args`: window size
`0x40000000` (1 GiB), `dram_size = UIO_BOOTROM_OFFSET = 0x3fffc000`. -/
def default_cfg : UioCfg := ⟨0x40000000, 0x3fffc000⟩

/-- Embedding of `uio_htif_t::rocket_addr_to_uio_offset` (uio_htif.cc
lines 113-132): the returned `size_t` offset.  The three half-open region
tests and the returned offsets are exactly the source's; the fall-through
case returns 0 (the warning side effect is modelled separately by
`unmapped_warning`).  No addition here can wrap: offsets stay below
`2 ^ 64` whenever the address does. -/
def rocket_addr_to_uio_offset (rocket_addr : ℕ) : ℕ :=
  if ROCKET_BOOTROM_BASE ≤ rocket_addr ∧ rocket_addr < ROCKET_BOOTROM_BASE + 0x2000 then
    UIO_BOOTROM_OFFSET + (rocket_addr - ROCKET_BOOTROM_BASE)
  else if ROCKET_CLINT_BASE ≤ rocket_addr ∧ rocket_addr < ROCKET_CLINT_BASE + 0x10000 then
    UIO_CLINT_OFFSET + (rocket_addr - ROCKET_CLINT_BASE)
  else if ROCKET_DRAM_BASE ≤ rocket_addr then
    UIO_DRAM_OFFSET + (rocket_addr - ROCKET_DRAM_BASE)
  else
    0

/-- Whether `rocket_addr_to_uio_offset` prints the
"Warning: Unmapped Rocket address" message (the `fprintf` on its
fall-through path, uio_htif.cc line 130): true exactly when none of the
three region tests match. -/
def unmapped_warning (rocket_addr : ℕ) : Bool :=
  if ROCKET_BOOTROM_BASE ≤ rocket_addr ∧ rocket_addr < ROCKET_BOOTROM_BASE + 0x2000 then
    false
  else if ROCKET_CLINT_BASE ≤ rocket_addr ∧ rocket_addr < ROCKET_CLINT_BASE + 0x10000 then
    false
  else if ROCKET_DRAM_BASE ≤ rocket_addr then
    false
  else
    true

/-- Embedding of `uio_htif_t::is_valid_address` (uio_htif.cc lines 134-160).
The C additions `uio_offset + len`, `rocket_addr + len` and
`rocket_addr - ROCKET_DRAM_BASE + len` are `uint64` computations, hence
taken `% TWO64` here; the comparisons and the region tests mirror the
source line by line. -/
def is_valid_address (cfg : UioCfg) (rocket_addr len : ℕ) : Bool :=
  if (rocket_addr_to_uio_offset rocket_addr + len) % TWO64 > cfg.uio_size then
    false
  else if ROCKET_BOOTROM_BASE ≤ rocket_addr ∧ rocket_addr < ROCKET_BOOTROM_BASE + 0x2000 then
    decide ((rocket_addr + len) % TWO64 ≤ ROCKET_BOOTROM_BASE + 0x2000)
  else if ROCKET_CLINT_BASE ≤ rocket_addr ∧ rocket_addr < ROCKET_CLINT_BASE + 0x10000 then
    decide ((rocket_addr + len) % TWO64 ≤ ROCKET_CLINT_BASE + 0x10000)
  else if ROCKET_DRAM_BASE ≤ rocket_addr then
    decide ((rocket_addr - ROCKET_DRAM_BASE + len) % TWO64 ≤ cfg.dram_size)
  else
    false

/-- Modelled from the spec (§4.2 `validate`): an access is valid iff it
translates to one of the three regions, the translated offset plus the
length fits in the window, and the target address plus the length does
not exceed that region's upper bound.  All arithmetic here is exact
(no wraparound), as the spec's words read; this definition exists to be
compared with `is_valid_address`, the embedding of the code. -/
def validate_spec (cfg : UioCfg) (a len : ℕ) : Prop :=
  (ROCKET_BOOTROM_BASE ≤ a ∧ a < ROCKET_BOOTROM_BASE + 0x2000 ∧
    (UIO_BOOTROM_OFFSET + (a - ROCKET_BOOTROM_BASE)) + len ≤ cfg.uio_size ∧
    a + len ≤ ROCKET_BOOTROM_BASE + 0x2000) ∨
  (ROCKET_CLINT_BASE ≤ a ∧ a < ROCKET_CLINT_BASE + 0x10000 ∧
    (UIO_CLINT_OFFSET + (a - ROCKET_CLINT_BASE)) + len ≤ cfg.uio_size ∧
    a + len ≤ ROCKET_CLINT_BASE + 0x10000) ∨
  (ROCKET_DRAM_BASE ≤ a ∧
    (UIO_DRAM_OFFSET + (a - ROCKET_DRAM_BASE)) + len ≤ cfg.uio_size ∧
    a + len ≤ ROCKET_DRAM_BASE + cfg.dram_size)

instance (cfg : UioCfg) (a len : ℕ) : Decidable (validate_spec cfg a len) := by
  unfold validate_spec
  infer_instance

/-- State of the mapped window's contents: `bytes o` is the byte stored at
window offset `o`, and `fences` counts the `__sync_synchronize()` memory
barriers issued so far (so "exactly one fence" is provable). -/
structure UioMem where
  bytes : ℕ → ℕ
  fences : ℕ

/-- Embedding of `uio_htif_t::read_chunk` (uio_htif.cc lines 162-173).
The C function throws before touching anything when the address is
invalid; this is modelled by the `Bool` success flag, with the caller's
`dst` buffer returned unchanged.  On success, `memcpy(dst, uio_base +
uio_offset, len)` overwrites the first `len` bytes of `dst` with the
window's bytes at the translated offset. -/
def read_chunk (cfg : UioCfg) (m : UioMem) (taddr len : ℕ) (dst : ℕ → ℕ) :
    Bool × (ℕ → ℕ) :=
  if is_valid_address cfg taddr len then
    let uio_offset := rocket_addr_to_uio_offset taddr
    (true, fun i => if i < len then m.bytes (uio_offset + i) else dst i)
  else
    (false, dst)

/-- Embedding of `uio_htif_t::write_chunk` (uio_htif.cc lines 175-189).
On an invalid address it throws before the `memcpy`, leaving the window
untouched; on success it copies `len` bytes of `src` into the window at
the translated offset and issues one `__sync_synchronize()` fence. -/
def write_chunk (cfg : UioCfg) (m : UioMem) (taddr len : ℕ) (src : ℕ → ℕ) :
    Bool × UioMem :=
  if is_valid_address cfg taddr len then
    let uio_offset := rocket_addr_to_uio_offset taddr
    (true,
      ⟨fun i => if uio_offset ≤ i ∧ i < uio_offset + len then src (i - uio_offset)
                else m.bytes i,
       m.fences + 1⟩)
  else
    (false, m)

/-- Embedding of `uio_htif_t::clear_chunk` (uio_htif.cc lines 191-205):
like `write_chunk` but `memset(..., 0, len)`, followed by one fence. -/
def clear_chunk (cfg : UioCfg) (m : UioMem) (taddr len : ℕ) : Bool × UioMem :=
  if is_valid_address cfg taddr len then
    let uio_offset := rocket_addr_to_uio_offset taddr
    (true,
      ⟨fun i => if uio_offset ≤ i ∧ i < uio_offset + len then 0 else m.bytes i,
       m.fences + 1⟩)
  else
    (false, m)

/-- Little-endian byte image of the `uint32_t one = 1` whose address is
passed to `write_chunk` by `reset` (the target platform is
little-endian): byte 0 is 1, bytes 1-3 are 0. -/
def one_le_bytes : ℕ → ℕ := fun i => if i = 0 then 1 else 0

/-- Embedding of `uio_htif_t::reset` (uio_htif.cc lines 207-216): a single
`write_chunk(ROCKET_CLINT_BASE, sizeof(uint32_t), &one)` writing the
4-byte value 1 to the MSIP register at CLINT offset 0. -/
def reset (cfg : UioCfg) (m : UioMem) : Bool × UioMem :=
  write_chunk cfg m ROCKET_CLINT_BASE 4 one_le_bytes

/-- Little-endian 32-bit value of the first four bytes of a buffer. -/
def le32 (b : ℕ → ℕ) : ℕ :=
  b 0 + 256 * b 1 + 65536 * b 2 + 16777216 * b 3

/-- The possible values of the `void* uio_base` field: null pointer,
the `MAP_FAILED` sentinel left behind by a failed `mmap`, or a live
mapping. -/
inductive BasePtr where
  | null : BasePtr
  | mapFailed : BasePtr
  | mapped : ℕ → BasePtr
  deriving DecidableEq, Repr

/-- The resource-holding fields of `uio_htif_t` together with event
counters for the OS calls: `liveHandles` counts file descriptors this
object currently holds open, `munmapCalls` and `closeCalls` count the
`munmap` and `close` invocations performed, so leak-freedom and
no-double-close are provable. -/
structure DevState where
  uio_fd : ℤ
  uio_base : BasePtr
  uio_size : ℕ
  liveHandles : ℕ
  munmapCalls : ℕ
  closeCalls : ℕ
  deriving DecidableEq, Repr

/-- Embedding of `uio_htif_t::map_uio_device` (uio_htif.cc lines 76-99).
The OS is an oracle: `openRes` is `some fd` when `open` succeeds with
descriptor `fd` and `none` when it returns -1; `mmapRes` is `some b` when
`mmap` succeeds at base `b` and `none` when it returns `MAP_FAILED`.
On open failure the -1 return value is stored in `uio_fd`; on mmap
failure `uio_base` holds `MAP_FAILED`, the open descriptor is closed and
`uio_fd` is reset to -1; on success `uio_base` and `uio_size` are set. -/
def map_uio_device (openRes : Option ℕ) (mmapRes : Option ℕ) (size : ℕ)
    (s : DevState) : Bool × DevState :=
  match openRes with
  | none => (false, { s with uio_fd := -1 })
  | some fd =>
    let s1 : DevState := { s with uio_fd := (fd : ℤ), liveHandles := s.liveHandles + 1 }
    match mmapRes with
    | none =>
      (false, { s1 with uio_base := BasePtr.mapFailed, uio_fd := -1,
                        liveHandles := s1.liveHandles - 1,
                        closeCalls := s1.closeCalls + 1 })
    | some b => (true, { s1 with uio_base := BasePtr.mapped b, uio_size := size })

/-- Embedding of `uio_htif_t::unmap_uio` (uio_htif.cc lines 101-111):
`munmap` and `uio_base = nullptr` only when `uio_base` is a live mapping
(neither null nor `MAP_FAILED`); `close` and `uio_fd = -1` only when
`uio_fd >= 0`. -/
def unmap_uio (s : DevState) : DevState :=
  let s1 : DevState :=
    match s.uio_base with
    | BasePtr.mapped _ =>
        { s with uio_base := BasePtr.null, munmapCalls := s.munmapCalls + 1 }
    | _ => s
  if 0 ≤ s1.uio_fd then
    { s1 with uio_fd := -1, liveHandles := s1.liveHandles - 1,
              closeCalls := s1.closeCalls + 1 }
  else
    s1

/-- C1 (amended): for every configuration with a 64-bit window size and
every access whose exact sum `addr + len` fits in 64 bits (no uint64
wraparound), `is_valid_address` is true iff the access translates to one
of the three regions, the translated offset plus `len` fits in the
window, and `addr + len` does not exceed that region's upper bound.
Without the no-wraparound restriction the equivalence fails, because the
code computes its length checks modulo `2 ^ 64`. -/
theorem valid_iff_validate_spec (cfg : UioCfg) (a len : ℕ)
    (hu : cfg.uio_size < TWO64) (hal : a + len < TWO64) :
    is_valid_address cfg a len = true ↔ validate_spec cfg a len := by
  unfold is_valid_address validate_spec rocket_addr_to_uio_offset TWO64
    ROCKET_BOOTROM_BASE ROCKET_CLINT_BASE ROCKET_DRAM_BASE
    UIO_BOOTROM_OFFSET UIO_CLINT_OFFSET UIO_DRAM_OFFSET at *
  split_ifs <;> simp_all [decide_eq_true_eq] <;> omega

/-- C1 counterexample: under the default configuration, the access at
`0x80001000` with length `0xfffffffffffff000` is accepted by
`is_valid_address` (the uint64 sums wrap to 0), yet it violates the
spec's three conditions, since the exact `addr + len` far exceeds the
DRAM region's upper bound; so the claimed equivalence is false as
stated. -/
theorem valid_iff_spec_cex :
    is_valid_address default_cfg 0x80001000 0xfffffffffffff000 = true ∧
    ¬ validate_spec default_cfg 0x80001000 0xfffffffffffff000 :=
  ⟨by decide, by decide⟩

/-- C1 witness: the equivalence instantiated at the first main-memory
word under the default configuration. -/
theorem valid_iff_validate_spec_w :
    is_valid_address default_cfg 0x80000000 4 = true ↔
    validate_spec default_cfg 0x80000000 4 :=
  valid_iff_validate_spec default_cfg 0x80000000 4 (by decide) (by decide)

/-- C2: the code violates the claim at `addr = 0x80002000`,
`len = 0xffffffffffffe000` (default configuration): the exact
`addr + len = 2 ^ 64 + 0x80000000` crosses the DRAM region's upper
boundary `0xbfffc000`, yet `is_valid_address` returns true because both
the window check `uio_offset + len` and the region check
`rocket_addr - ROCKET_DRAM_BASE + len` wrap to 0 in uint64
arithmetic. -/
theorem overflow_len_accepted :
    is_valid_address default_cfg 0x80002000 0xffffffffffffe000 = true ∧
    ROCKET_DRAM_BASE + default_cfg.dram_size <
      0x80002000 + 0xffffffffffffe000 :=
  ⟨by decide, by decide⟩

/-- C3 (amended): for every address below the main-memory base that is
outside the boot-ROM and interrupt-control regions, `is_valid_address`
is false for every length and the unmapped-address warning is recorded;
for every address strictly above the DRAM region's end, no warning is
recorded (translation still treats it as main memory) and
`is_valid_address` is false for every length whose offset sum does not
wrap 64 bits. -/
theorem unmapped_and_above_dram_end (cfg : UioCfg) (a len : ℕ) :
    (a < ROCKET_DRAM_BASE →
      ¬ (ROCKET_BOOTROM_BASE ≤ a ∧ a < ROCKET_BOOTROM_BASE + 0x2000) →
      ¬ (ROCKET_CLINT_BASE ≤ a ∧ a < ROCKET_CLINT_BASE + 0x10000) →
      is_valid_address cfg a len = false ∧ unmapped_warning a = true) ∧
    (ROCKET_DRAM_BASE + cfg.dram_size < a →
      a - ROCKET_DRAM_BASE + len < TWO64 →
      is_valid_address cfg a len = false ∧ unmapped_warning a = false) := by
  unfold is_valid_address unmapped_warning rocket_addr_to_uio_offset TWO64
    ROCKET_BOOTROM_BASE ROCKET_CLINT_BASE ROCKET_DRAM_BASE
    UIO_BOOTROM_OFFSET UIO_CLINT_OFFSET UIO_DRAM_OFFSET at *
  refine ⟨fun h1 h2 h3 => ?_, fun h1 h2 => ?_⟩ <;>
    split_ifs <;> simp_all [decide_eq_true_eq] <;> omega

/-- C3 counterexample: `0xC0000000` lies above the default DRAM region's
end `0xbfffc000`, yet translation records no unmapped-address warning
(it is handled by the catch-all main-memory branch), and with the
wrapping length `0xffffffffc0000000` the access is even accepted; so
neither the warning part nor the always-false part of the claim holds
for addresses above the last region's end. -/
theorem above_dram_end_cex :
    unmapped_warning 0xC0000000 = false ∧
    ROCKET_DRAM_BASE + default_cfg.dram_size < 0xC0000000 ∧
    is_valid_address default_cfg 0xC0000000 0xffffffffc0000000 = true :=
  ⟨by decide, by decide, by decide⟩

/-- C3 witness: the gap address `0x3000` (just past the boot ROM) is
rejected with a warning, and `0xC0000000` (above the DRAM end) is
rejected without one. -/
theorem unmapped_and_above_dram_end_w :
    (is_valid_address default_cfg 0x3000 8 = false ∧
      unmapped_warning 0x3000 = true) ∧
    (is_valid_address default_cfg 0xC0000000 16 = false ∧
      unmapped_warning 0xC0000000 = false) :=
  ⟨(unmapped_and_above_dram_end default_cfg 0x3000 8).1
      (by decide) (by decide) (by decide),
   (unmapped_and_above_dram_end default_cfg 0xC0000000 16).2
      (by decide) (by decide)⟩

/-- C4: every in-bounds main-memory access is translated to
`a - ROCKET_DRAM_BASE` and accepted, provided the DRAM region fits in
the window (`dram_size ≤ uio_size`) and the window size is a 64-bit
value. -/
theorem dram_translate_and_valid (cfg : UioCfg) (a len : ℕ)
    (h1 : ROCKET_DRAM_BASE ≤ a) (h2 : a < ROCKET_DRAM_BASE + cfg.dram_size)
    (h3 : a + len ≤ ROCKET_DRAM_BASE + cfg.dram_size)
    (h4 : cfg.dram_size ≤ cfg.uio_size) (h5 : cfg.uio_size < TWO64) :
    rocket_addr_to_uio_offset a = a - ROCKET_DRAM_BASE ∧
    is_valid_address cfg a len = true := by
  unfold is_valid_address rocket_addr_to_uio_offset TWO64
    ROCKET_BOOTROM_BASE ROCKET_CLINT_BASE ROCKET_DRAM_BASE
    UIO_BOOTROM_OFFSET UIO_CLINT_OFFSET UIO_DRAM_OFFSET at *
  split_ifs <;> simp_all [decide_eq_true_eq] <;> omega

/-- C4 witness: the first main-memory word under the default
configuration translates to offset 0 and is valid. -/
theorem dram_translate_and_valid_w :
    rocket_addr_to_uio_offset 0x80000000 = 0x80000000 - ROCKET_DRAM_BASE ∧
    is_valid_address default_cfg 0x80000000 4 = true :=
  dram_translate_and_valid default_cfg 0x80000000 4 (by decide) (by decide)
    (by decide) (by decide) (by decide)

/-- C5: each chunk operation is atomic per request.  On an invalid
address all three operations fail and leave the destination buffer and
the window (bytes and fence count) completely unchanged; on a valid
address all three fully complete, with `write_chunk` and `clear_chunk`
issuing exactly one memory fence. -/
theorem chunk_ops_atomic (cfg : UioCfg) (m : UioMem) (a len : ℕ)
    (src dst : ℕ → ℕ) :
    (is_valid_address cfg a len = false →
      read_chunk cfg m a len dst = (false, dst) ∧
      write_chunk cfg m a len src = (false, m) ∧
      clear_chunk cfg m a len = (false, m)) ∧
    (is_valid_address cfg a len = true →
      (read_chunk cfg m a len dst).1 = true ∧
      (write_chunk cfg m a len src).1 = true ∧
      (write_chunk cfg m a len src).2.fences = m.fences + 1 ∧
      (clear_chunk cfg m a len).1 = true ∧
      (clear_chunk cfg m a len).2.fences = m.fences + 1) := by
  refine ⟨fun h => ?_, fun h => ?_⟩ <;>
    simp [read_chunk, write_chunk, clear_chunk, h]

/-- C5 witness: the unmapped address 0 makes `read_chunk` fail without
touching the destination, and the valid first DRAM word makes
`write_chunk` succeed. -/
theorem chunk_ops_atomic_w :
    read_chunk default_cfg ⟨fun _ => 0, 0⟩ 0 4 (fun _ => 0) =
      (false, fun _ => 0) ∧
    (write_chunk default_cfg ⟨fun _ => 0, 0⟩ 0x80000000 4 (fun _ => 0)).1 =
      true :=
  ⟨((chunk_ops_atomic default_cfg ⟨fun _ => 0, 0⟩ 0 4 (fun _ => 0)
      (fun _ => 0)).1 (by decide)).1,
   ((chunk_ops_atomic default_cfg ⟨fun _ => 0, 0⟩ 0x80000000 4 (fun _ => 0)
      (fun _ => 0)).2 (by decide)).2.1⟩

/-- C6: round-trip — for every access satisfying `is_valid_address`,
writing `len` bytes and then reading them back at the same address
succeeds and returns the written bytes byte for byte. -/
theorem write_read_round_trip (cfg : UioCfg) (m : UioMem) (a len : ℕ)
    (src dst : ℕ → ℕ) (h : is_valid_address cfg a len = true) :
    (read_chunk cfg (write_chunk cfg m a len src).2 a len dst).1 = true ∧
    (∀ i, i < len →
      (read_chunk cfg (write_chunk cfg m a len src).2 a len dst).2 i = src i) := by
  simp only [read_chunk, write_chunk, h, if_pos]
  refine ⟨by trivial, fun i hi => ?_⟩
  simp only [if_pos hi]
  rw [if_pos ⟨Nat.le_add_right _ _, by omega⟩, Nat.add_sub_cancel_left]

/-- C6 witness: writing the buffer `i + 7` at the first DRAM word and
reading back yields byte 2 equal to 9. -/
theorem write_read_round_trip_w :
    (read_chunk default_cfg
      (write_chunk default_cfg ⟨fun _ => 0, 0⟩ 0x80000000 4 (fun i => i + 7)).2
      0x80000000 4 (fun _ => 0)).2 2 = 9 :=
  (write_read_round_trip default_cfg ⟨fun _ => 0, 0⟩ 0x80000000 4
    (fun i => i + 7) (fun _ => 0) (by decide)).2 2 (by decide)

/-- C7: `reset` performs exactly one 4-byte write of the value 1 to the
interrupt-control region's offset 0 — target address `ROCKET_CLINT_BASE
= 0x2000000`, window offset `UIO_CLINT_OFFSET = 0x3fffe000` — followed by
exactly one fence, touches no other byte of the window, and reading
those 4 bytes back yields the little-endian value 1; the window only
needs to cover the 4 written bytes. -/
theorem reset_single_msip_write (cfg : UioCfg) (m : UioMem) (dst : ℕ → ℕ)
    (h : 0x3fffe004 ≤ cfg.uio_size) (h64 : cfg.uio_size < TWO64) :
    (reset cfg m).1 = true ∧
    (reset cfg m).2.fences = m.fences + 1 ∧
    rocket_addr_to_uio_offset ROCKET_CLINT_BASE = UIO_CLINT_OFFSET ∧
    (∀ i, i < 0x3fffe000 ∨ 0x3fffe004 ≤ i →
      (reset cfg m).2.bytes i = m.bytes i) ∧
    (read_chunk cfg (reset cfg m).2 ROCKET_CLINT_BASE 4 dst).1 = true ∧
    le32 (read_chunk cfg (reset cfg m).2 ROCKET_CLINT_BASE 4 dst).2 = 1 := by
  have hv : is_valid_address cfg ROCKET_CLINT_BASE 4 = true := by
    unfold is_valid_address rocket_addr_to_uio_offset TWO64
      ROCKET_BOOTROM_BASE ROCKET_CLINT_BASE ROCKET_DRAM_BASE
      UIO_BOOTROM_OFFSET UIO_CLINT_OFFSET UIO_DRAM_OFFSET at *
    split_ifs <;> simp_all [decide_eq_true_eq]
    omega
  have hoff : rocket_addr_to_uio_offset ROCKET_CLINT_BASE = 0x3fffe000 := by
    decide
  refine ⟨?_, ?_, ?_, ?_, ?_, ?_⟩
  · simp [reset, write_chunk, hv]
  · simp [reset, write_chunk, hv]
  · decide
  · intro i hi
    simp only [reset, write_chunk, hv, if_pos, hoff]
    rw [if_neg (by omega)]
  · simp [read_chunk, reset, write_chunk, hv]
  · simp only [le32, read_chunk, reset, write_chunk, hv, if_pos, hoff]
    norm_num [one_le_bytes]

/-- C7 witness: under the default configuration, `reset` on a zeroed
window succeeds and reading back the MSIP word yields 1. -/
theorem reset_single_msip_write_w :
    (reset default_cfg ⟨fun _ => 0, 0⟩).1 = true ∧
    le32 (read_chunk default_cfg (reset default_cfg ⟨fun _ => 0, 0⟩).2
      ROCKET_CLINT_BASE 4 (fun _ => 0)).2 = 1 :=
  ⟨(reset_single_msip_write default_cfg ⟨fun _ => 0, 0⟩ (fun _ => 0)
      (by decide) (by decide)).1,
   (reset_single_msip_write default_cfg ⟨fun _ => 0, 0⟩ (fun _ => 0)
      (by decide) (by decide)).2.2.2.2.2⟩

/-- C8: when `open` succeeds (with any descriptor) and `mmap` fails,
`map_uio_device` reports failure, leaves the descriptor field at -1,
returns the live-handle count to its prior value (no leaked handle), and
has performed exactly one `close`. -/
theorem map_uio_device_mmap_fail_no_leak (fd size : ℕ) (s : DevState) :
    (map_uio_device (some fd) none size s).1 = false ∧
    (map_uio_device (some fd) none size s).2.uio_fd = -1 ∧
    (map_uio_device (some fd) none size s).2.liveHandles = s.liveHandles ∧
    (map_uio_device (some fd) none size s).2.closeCalls = s.closeCalls + 1 := by
  simp [map_uio_device]

/-- C9: `unmap_uio` is idempotent on the full device state; it performs
no `munmap` when no live mapping exists (in particular on a
partially-constructed instance whose base is null or `MAP_FAILED`), and
performs no `close` and changes neither descriptor nor handle count when
no descriptor is open. -/
theorem unmap_uio_idempotent (s : DevState) :
    unmap_uio (unmap_uio s) = unmap_uio s ∧
    ((∀ b, s.uio_base ≠ BasePtr.mapped b) →
      (unmap_uio s).munmapCalls = s.munmapCalls ∧
      (unmap_uio s).uio_base = s.uio_base) ∧
    (s.uio_fd < 0 →
      (unmap_uio s).closeCalls = s.closeCalls ∧
      (unmap_uio s).uio_fd = s.uio_fd ∧
      (unmap_uio s).liveHandles = s.liveHandles) := by
  obtain ⟨fd, base, size, lh, mc, cc⟩ := s
  refine ⟨?_, fun hb => ?_, fun hfd => ?_⟩
  · cases base <;> by_cases hf : (0 : ℤ) ≤ fd <;>
      simp [unmap_uio, hf]
  · cases base <;> by_cases hf : (0 : ℤ) ≤ fd <;>
      simp [unmap_uio, hf]
    all_goals exact absurd rfl (hb _)
  · have hfd2 : fd < 0 := hfd
    have hf : ¬ (0 : ℤ) ≤ fd := by omega
    cases base <;> simp [unmap_uio, hf]

/-- C9 witness: on the partially-constructed state left by a failed
`mmap` (descriptor already closed, base `MAP_FAILED`), a second
`unmap_uio` is a no-op and the first performs neither `munmap` nor
`close`. -/
theorem unmap_uio_idempotent_w :
    unmap_uio (unmap_uio ⟨-1, BasePtr.mapFailed, 0, 0, 0, 0⟩) =
      unmap_uio ⟨-1, BasePtr.mapFailed, 0, 0, 0, 0⟩ ∧
    (unmap_uio ⟨-1, BasePtr.mapFailed, 0, 0, 0, 0⟩).munmapCalls = 0 ∧
    (unmap_uio ⟨-1, BasePtr.mapFailed, 0, 0, 0, 0⟩).closeCalls = 0 :=
  ⟨(unmap_uio_idempotent ⟨-1, BasePtr.mapFailed, 0, 0, 0, 0⟩).1,
   ((unmap_uio_idempotent ⟨-1, BasePtr.mapFailed, 0, 0, 0, 0⟩).2.1
     (fun b h => BasePtr.noConfusion h)).1,
   ((unmap_uio_idempotent ⟨-1, BasePtr.mapFailed, 0, 0, 0, 0⟩).2.2
     (by decide)).1⟩

/-- C10: translation treats every address at or above `ROCKET_DRAM_BASE`
as main memory — offset `a - ROCKET_DRAM_BASE`, no warning, with no
upper bound in translation itself — and for such addresses acceptance is
decided exactly by the two modulo-`2 ^ 64` length checks of
`is_valid_address`. -/
theorem dram_translation_unbounded (cfg : UioCfg) (a len : ℕ)
    (h : ROCKET_DRAM_BASE ≤ a) :
    rocket_addr_to_uio_offset a = a - ROCKET_DRAM_BASE ∧
    unmapped_warning a = false ∧
    (is_valid_address cfg a len = true ↔
      ((a - ROCKET_DRAM_BASE + len) % TWO64 ≤ cfg.uio_size ∧
       (a - ROCKET_DRAM_BASE + len) % TWO64 ≤ cfg.dram_size)) := by
  unfold is_valid_address unmapped_warning rocket_addr_to_uio_offset TWO64
    ROCKET_BOOTROM_BASE ROCKET_CLINT_BASE ROCKET_DRAM_BASE
    UIO_BOOTROM_OFFSET UIO_CLINT_OFFSET UIO_DRAM_OFFSET at *
  split_ifs <;> simp_all [decide_eq_true_eq] <;> omega

/-- C10 witness: `0xC0000000`, beyond the default DRAM end, still
translates to `0x40000000` with no warning, and its validity reduces to
the two length checks. -/
theorem dram_translation_unbounded_w :
    rocket_addr_to_uio_offset 0xC0000000 = 0xC0000000 - ROCKET_DRAM_BASE ∧
    unmapped_warning 0xC0000000 = false ∧
    (is_valid_address default_cfg 0xC0000000 8 = true ↔
      ((0xC0000000 - ROCKET_DRAM_BASE + 8) % TWO64 ≤ default_cfg.uio_size ∧
       (0xC0000000 - ROCKET_DRAM_BASE + 8) % TWO64 ≤ default_cfg.dram_size)) :=
  dram_translation_unbounded default_cfg 0xC0000000 8 (by decide)

end UioHtif
